import Mathlib

/-!
Verification development for the BioDynaMo spatial-simulation core:
the uniform grid environment, the per-step execution context, substance
definition, and the pairwise interaction forces.  Positions and physical
quantities are modelled over `ℚ`; square roots taken by the C++ code are
represented by an explicit square-root oracle parameter where they occur.
-/

/-- A 3-component vector of rationals, modelling the `Real3` / `Double3`
position and force vectors of the source. -/
structure V3 where
  x : ℚ
  y : ℚ
  z : ℚ
deriving DecidableEq, Repr

/-- A 4-component vector of rationals, modelling `Real4` (force plus the
proportion transmitted to the proximal end). -/
structure V4 where
  f0 : ℚ
  f1 : ℚ
  f2 : ℚ
  f3 : ℚ
deriving DecidableEq, Repr

def V3.add (a b : V3) : V3 := ⟨a.x + b.x, a.y + b.y, a.z + b.z⟩

def V3.sub (a b : V3) : V3 := ⟨a.x - b.x, a.y - b.y, a.z - b.z⟩

/-- Multiplication of a vector by a scalar, modelling `MathArray::operator*`. -/
def V3.smul (a : V3) (k : ℚ) : V3 := ⟨a.x * k, a.y * k, a.z * k⟩

/-- Division of a vector by a scalar, modelling `MathArray::operator/`. -/
def V3.sdiv (a : V3) (k : ℚ) : V3 := ⟨a.x / k, a.y / k, a.z / k⟩

/-- Dot product, modelling `a.EntryWiseProduct(b).Sum()`. -/
def V3.dot (a b : V3) : ℚ := a.x * b.x + a.y * b.y + a.z * b.z

/-- Squared Euclidean norm of a vector. -/
def norm2 (a : V3) : ℚ := a.x * a.x + a.y * a.y + a.z * a.z

/-- Squared Euclidean distance between two points, written exactly as the
source computes it (`comp1 * comp1 + comp2 * comp2 + comp3 * comp3`). -/
def centersDist2 (p q : V3) : ℚ :=
  (p.x - q.x) * (p.x - q.x) + (p.y - q.y) * (p.y - q.y) + (p.z - q.z) * (p.z - q.z)

/-- An agent as seen by the spatial core: unique identifier, position and
diameter (the interaction radius is derived from the diameter). -/
structure Agent where
  uid : ℕ
  pos : V3
  diameter : ℚ
deriving DecidableEq, Repr

/-- Minimum of a list of rationals (0 for the empty list). -/
def listMin (l : List ℚ) : ℚ :=
  match l with
  | [] => 0
  | h :: t => t.foldl min h

/-- Maximum of a list of rationals (0 for the empty list). -/
def listMax (l : List ℚ) : ℚ :=
  match l with
  | [] => 0
  | h :: t => t.foldl max h

/-- Modelled from the spec: the largest agent interaction diameter present,
from which `Update()` derives the uniform box edge length
(`UniformGridEnvironment` itself is not part of the provided sources). -/
def largestDiameter (agents : List Agent) : ℚ :=
  agents.foldl (fun m a => max m a.diameter) 0

/-- Modelled from the spec: the uniform grid environment state after a
rebuild — box edge length, lower corner of the (halo-padded) bounding box,
per-axis box counts, and the indexed agent collection.  The implementation
file of `UniformGridEnvironment` is not among the provided sources; the
model follows §3/§4.1 of the spec and is pinned by the in-repository grid
test fixtures. -/
structure UniformGridEnvironment where
  boxLength : ℚ
  lo : V3
  nx : ℤ
  ny : ℤ
  nz : ℤ
  agents : List Agent
deriving DecidableEq, Repr

/-- Modelled from the spec: `Update()` recomputes the bounding box from all
agent positions, derives the box edge length from the current maximum agent
diameter, rounds the bounds to multiples of the box length and pads them by
one halo box per side (this reproduces the `GridDimensions` fixture:
a 3×3×3 lattice with spacing 20 and diameter 30 yields bounds [-30, 90] and
a 4×4×4 box grid), and records the agent collection. -/
def UniformGridEnvironment.update (agents : List Agent) : UniformGridEnvironment :=
  let l := largestDiameter agents
  let xs := agents.map (fun a => a.pos.x)
  let ys := agents.map (fun a => a.pos.y)
  let zs := agents.map (fun a => a.pos.z)
  { boxLength := l
    lo := ⟨l * (⌊listMin xs / l⌋ - 1), l * (⌊listMin ys / l⌋ - 1), l * (⌊listMin zs / l⌋ - 1)⟩
    nx := ⌈listMax xs / l⌉ - ⌊listMin xs / l⌋ + 2
    ny := ⌈listMax ys / l⌉ - ⌊listMin ys / l⌋ + 2
    nz := ⌈listMax zs / l⌉ - ⌊listMin zs / l⌋ + 2
    agents := agents }

/-- Modelled from the spec: the 3D integer box coordinate of a position,
obtained by floor-dividing the origin-shifted position by the box length
per axis (floor semantics at boundaries). -/
def UniformGridEnvironment.boxCoord (g : UniformGridEnvironment) (p : V3) : ℤ × ℤ × ℤ :=
  (⌊(p.x - g.lo.x) / g.boxLength⌋,
   ⌊(p.y - g.lo.y) / g.boxLength⌋,
   ⌊(p.z - g.lo.z) / g.boxLength⌋)

/-- Modelled from the spec: `GetBoxIndex(position)` flattens the 3D box
coordinate into a linear index via `idx = x + y*nx + z*nx*ny`. -/
def UniformGridEnvironment.getBoxIndex (g : UniformGridEnvironment) (p : V3) : ℤ :=
  let c := g.boxCoord p
  c.1 + c.2.1 * g.nx + c.2.2 * g.nx * g.ny

/-- Modelled from the spec: `GetBoxCoordinates(index)` inverts the
flattening formula. -/
def UniformGridEnvironment.getBoxCoordinates (g : UniformGridEnvironment) (idx : ℤ) :
    ℤ × ℤ × ℤ :=
  (idx % g.nx, (idx / g.nx) % g.ny, idx / (g.nx * g.ny))

/-- Real-world centre of the box with integer coordinate `c`. -/
def UniformGridEnvironment.worldPositionOf (g : UniformGridEnvironment) (c : ℤ × ℤ × ℤ) : V3 :=
  ⟨g.lo.x + g.boxLength * c.1 + g.boxLength / 2,
   g.lo.y + g.boxLength * c.2.1 + g.boxLength / 2,
   g.lo.z + g.boxLength * c.2.2 + g.boxLength / 2⟩

/-- Two box coordinates are in each other's 3×3×3 neighborhood: they differ
by at most one along every axis. -/
def boxAdjacent (c d : ℤ × ℤ × ℤ) : Prop :=
  (c.1 - d.1).natAbs ≤ 1 ∧ (c.2.1 - d.2.1).natAbs ≤ 1 ∧ (c.2.2 - d.2.2).natAbs ≤ 1

instance (c d : ℤ × ℤ × ℤ) : Decidable (boxAdjacent c d) := by
  unfold boxAdjacent
  infer_instance

/-- Modelled from the spec: `ForEachNeighborWithinRadius(callback, agent,
squared_radius)` visits the query agent's own box and the 26 adjacent boxes
and yields every other agent there whose squared Euclidean distance to the
query agent is at most `squared_radius`, excluding the query agent itself.
The visited set is returned as the sub-list of the indexed collection. -/
def UniformGridEnvironment.forEachNeighborWithinRadius
    (g : UniformGridEnvironment) (q : Agent) (r2 : ℚ) : List Agent :=
  g.agents.filter (fun o =>
    decide (o.uid ≠ q.uid ∧ boxAdjacent (g.boxCoord o.pos) (g.boxCoord q.pos) ∧
      centersDist2 o.pos q.pos ≤ r2))

/-- Uids of the agents visited by a within-radius neighbor query. -/
def neighborUids (g : UniformGridEnvironment) (a : Agent) (r2 : ℚ) : List ℕ :=
  (g.forEachNeighborWithinRadius a r2).map (fun o => o.uid)

/-- One full neighbor-query pass over a frozen grid snapshot: every agent
of the processing schedule `order` is mapped to its visited uid set; the
result is collected order-insensitively as a multiset of per-agent
entries. -/
def queryPass (g : UniformGridEnvironment) (order : List Agent) (r2 : ℚ) :
    Multiset (ℕ × List ℕ) :=
  (order.map (fun a => (a.uid, neighborUids g a r2)) : List (ℕ × List ℕ))

/-- The 27-agent 3×3×3 lattice fixture of `GridTest` (`CellFactory(rm, 3)`):
cells at all positions `(20k, 20j, 20i)` with diameter 30, uids in
`i`-major order. -/
def lattice3 : List Agent :=
  (List.range 27).map (fun n =>
    ⟨n, ⟨20 * ((n % 3 : ℕ) : ℚ), 20 * (((n / 3) % 3 : ℕ) : ℚ), 20 * ((n / 9 : ℕ) : ℚ)⟩, 30⟩)

/-- The grid built over the 3×3×3 lattice fixture. -/
def grid3 : UniformGridEnvironment := UniformGridEnvironment.update lattice3

/-- The authoritative agent collection (`ResourceManager`), holding the
committed agents. -/
structure ResourceManager where
  agents : List Agent
deriving DecidableEq, Repr

/-- Appends an agent to the authoritative collection
(`ResourceManager::push_back`). -/
def ResourceManager.pushBack (rm : ResourceManager) (a : Agent) : ResourceManager :=
  ⟨rm.agents ++ [a]⟩

/-- Removes the agent carrying the given uid from the authoritative
collection (`ResourceManager::Remove(uid)`); agents with other uids are
kept in order. -/
def ResourceManager.removeUid (rm : ResourceManager) (uid : ℕ) : ResourceManager :=
  ⟨rm.agents.filter (fun a => decide (a.uid ≠ uid))⟩

/-- The per-worker staging state of `ApproximateExecCtxt`: agents created
during the step (`new_sim_objects_`) and uids pending removal
(`remove_`). -/
structure ApproximateExecCtxt where
  newSimObjects : List Agent
  removeList : List ℕ
deriving DecidableEq, Repr

/-- The commit operation `ApproximateExecCtxt::TearDownIteration`: first
every staged new agent is pushed into the resource manager, then every
pending uid is removed (in that order, per the source comment: a staged
agent may itself have been scheduled for removal), and finally both
staging structures are cleared. -/
def ApproximateExecCtxt.tearDownIteration (ctxt : ApproximateExecCtxt)
    (rm : ResourceManager) : ApproximateExecCtxt × ResourceManager :=
  let rm1 := ctxt.newSimObjects.foldl (fun r so => r.pushBack so) rm
  let rm2 := ctxt.removeList.foldl (fun r uid => r.removeUid uid) rm1
  (⟨[], []⟩, rm2)

/-- The lookup `ApproximateExecCtxt::GetSimObject`: the staging buffer is
consulted first (an agent created during the current step), then the
authoritative collection. -/
def ApproximateExecCtxt.getSimObject (ctxt : ApproximateExecCtxt)
    (rm : ResourceManager) (uid : ℕ) : Option Agent :=
  if ctxt.newSimObjects.any (fun a => a.uid == uid) then
    ctxt.newSimObjects.find? (fun a => a.uid == uid)
  else
    rm.agents.find? (fun a => a.uid == uid)

/-- Discriminant of the diffusion solver chosen by
`ModelInitializer::DefineSubstance`. -/
inductive DiffusionMethodKind
  | euler
  | rungeKutta
deriving DecidableEq, Repr

/-- The state a constructed diffusion grid is registered with: solver kind,
substance identity and the numerical parameters handed to the
constructor. -/
structure DiffusionGridCfg where
  kind : DiffusionMethodKind
  substanceId : ℕ
  substanceName : String
  diffusionCoeff : ℚ
  decayConstant : ℚ
  resolution : ℤ
deriving DecidableEq, Repr

/-- A log event emitted through `Log`; `fatal` aborts the process, the
other levels do not. -/
inductive LogEvent
  | warning (location msg : String)
  | error (location msg : String)
  | fatal (location msg : String)
deriving DecidableEq, Repr

/-- Whether a log event is fatal (aborts the run). -/
def LogEvent.isFatal : LogEvent → Bool
  | .fatal _ _ => true
  | _ => false

/-- The continuum registry of the resource manager
(`ResourceManager::AddContinuum`). -/
structure ContinuumRegistry where
  continua : List DiffusionGridCfg
deriving DecidableEq, Repr

def ContinuumRegistry.addContinuum (rm : ContinuumRegistry) (g : DiffusionGridCfg) :
    ContinuumRegistry :=
  ⟨rm.continua ++ [g]⟩

def defineSubstanceLoc : String := "ModelInitializer::DefineSubstance"

def rkDecayWarningMsg : String := "RungeKuttaGrid does not support a decay constant. Using 0."

def unknownMethodErrorMsg : String := "Diffusion method does not exist. Defaulting to euler."

/-- The operation `ModelInitializer::DefineSubstance`: dispatch on the
configured diffusion method string.  With method `euler` an Euler grid
carrying the given decay constant is built; with method `runge-kutta` a
Runge-Kutta grid is built with decay fixed to zero, and a warning is
logged when a nonzero decay constant was supplied; for any other method
string an error is logged and an Euler grid with the given parameters is
built.  The constructed grid is always registered with the resource
manager; the returned list collects the log events emitted. -/
def defineSubstance (diffusionMethod : String) (rm : ContinuumRegistry)
    (substanceId : ℕ) (substanceName : String) (diffusionCoeff decayConstant : ℚ)
    (resolution : ℤ) : ContinuumRegistry × List LogEvent :=
  if diffusionMethod = "euler" then
    (rm.addContinuum ⟨.euler, substanceId, substanceName, diffusionCoeff,
      decayConstant, resolution⟩, [])
  else if diffusionMethod = "runge-kutta" then
    let logs := if decayConstant ≠ 0 then
        [LogEvent.warning defineSubstanceLoc rkDecayWarningMsg]
      else []
    (rm.addContinuum ⟨.rungeKutta, substanceId, substanceName, diffusionCoeff,
      0, resolution⟩, logs)
  else
    (rm.addContinuum ⟨.euler, substanceId, substanceName, diffusionCoeff,
      decayConstant, resolution⟩,
     [LogEvent.error defineSubstanceLoc unknownMethodErrorMsg])

/-- Modelled from the spec: the shape discriminant returned by
`Agent::GetShape` (`core/shape.h` is not among the provided sources); the
supported shapes are spheres and cylinders, and `other` stands for any
shape outside the supported set. -/
inductive Shape
  | sphere
  | cylinder
  | other
deriving DecidableEq, Repr

/-- The four pairwise force functions `InteractionForce::Calculate`
dispatches to. -/
inductive PairwiseForceFn
  | forceBetweenSpheres
  | forceOnASphereFromACylinder
  | forceOnACylinderFromASphere
  | forceBetweenCylinders
deriving DecidableEq, Repr

/-- Outcome of `InteractionForce::Calculate`: either control reaches
exactly one of the four pairwise force functions, or `Log::Fatal` is
reached (which aborts the run, producing no numeric result). -/
inductive CalculateResult
  | dispatched (fn : PairwiseForceFn)
  | fatalError (location msg : String)
deriving DecidableEq, Repr

def calculateFatalMsg : String := "InteractionForce only supports sphere or cylinder shapes"

def interactionForceLoc : String := "InteractionForce"

/-- The shape dispatch of `InteractionForce::Calculate(lhs, rhs)`,
following the if-else chain of the source. -/
def calculate (lhs rhs : Shape) : CalculateResult :=
  if lhs = Shape.sphere ∧ rhs = Shape.sphere then
    .dispatched .forceBetweenSpheres
  else if lhs = Shape.sphere ∧ rhs = Shape.cylinder then
    .dispatched .forceOnASphereFromACylinder
  else if lhs = Shape.cylinder ∧ rhs = Shape.sphere then
    .dispatched .forceOnACylinderFromASphere
  else if lhs = Shape.cylinder ∧ rhs = Shape.cylinder then
    .dispatched .forceBetweenCylinders
  else
    .fatalError interactionForceLoc calculateFatalMsg

/-- A sphere agent as consumed by the force functions: position and
diameter. -/
structure SphereAgentM where
  position : V3
  diameter : ℚ
deriving DecidableEq, Repr

/-- A cylinder agent (`NeuriteElement`) as consumed by the force
functions: the accessors the source reads. -/
structure NeuriteElementM where
  proximalEnd : V3
  distalEnd : V3
  springAxis : V3
  massLocation : V3
  diameter : ℚ
deriving DecidableEq, Repr

/-- Which arm of the sphere-sphere force computation produced the result:
no overlap, the near-coincident-centers random repulsive kick, or the
regular branch that divides by the center distance. -/
inductive ForceBranch
  | noOverlap
  | randomKick
  | divide
deriving DecidableEq, Repr

/-- Result of a sphere-sphere force computation together with the branch
that produced it. -/
structure SphereForceResult where
  force : V4
  branch : ForceBranch
deriving DecidableEq, Repr

/-- The helper `InteractionForce::ComputeForceOfASphereOnASphere(c1, r1,
c2, r2)`.  `sqrtA` stands for `std::sqrt`; `rng` stands for the three
values drawn by `random->UniformArray<3>(-3.0, 3.0)` in the
near-coincident-centers branch.  Branch structure follows the source: no
overlap yields the zero force, a center distance below `1e-8` yields the
random kick, and only the remaining branch divides by the center
distance. -/
def computeForceOfASphereOnASphere (sqrtA : ℚ → ℚ) (rng : V3)
    (c1 : V3) (r1 : ℚ) (c2 : V3) (r2 : ℚ) : SphereForceResult :=
  let comp1 := c1.x - c2.x
  let comp2 := c1.y - c2.y
  let comp3 := c1.z - c2.z
  let distanceBetweenCenters := sqrtA (comp1 * comp1 + comp2 * comp2 + comp3 * comp3)
  let a := r1 + r2 - distanceBetweenCenters
  if a < 0 then
    ⟨⟨0, 0, 0, 0⟩, .noOverlap⟩
  else if distanceBetweenCenters < 1 / 100000000 then
    ⟨⟨rng.x, rng.y, rng.z, 0⟩, .randomKick⟩
  else
    let forceModule := a / distanceBetweenCenters
    ⟨⟨forceModule * comp1, forceModule * comp2, forceModule * comp3, 0⟩, .divide⟩

/-- The pairwise force `InteractionForce::ForceBetweenSpheres`.  Virtual
radii are enlarged by `10 * min(0.15, 0.15)`; the branch structure (no
overlap, near-coincident random kick, division by the center distance)
follows the source, and the branch taken is reported alongside the
force. -/
def forceBetweenSpheres (sqrtA : ℚ → ℚ) (rng : V3)
    (sphereLhs sphereRhs : SphereAgentM) : V3 × ForceBranch :=
  let refMassLocation := sphereLhs.position
  let refDiameter := sphereLhs.diameter
  let refIofCoefficient : ℚ := 15 / 100
  let nbMassLocation := sphereRhs.position
  let nbDiameter := sphereRhs.diameter
  let nbIofCoefficient : ℚ := 15 / 100
  let additionalRadius := 10 * min refIofCoefficient nbIofCoefficient
  let r1 := refDiameter / 2 + additionalRadius
  let r2 := nbDiameter / 2 + additionalRadius
  let comp1 := refMassLocation.x - nbMassLocation.x
  let comp2 := refMassLocation.y - nbMassLocation.y
  let comp3 := refMassLocation.z - nbMassLocation.z
  let centerDistance := sqrtA (comp1 * comp1 + comp2 * comp2 + comp3 * comp3)
  let delta := r1 + r2 - centerDistance
  if delta < 0 then
    (⟨0, 0, 0⟩, .noOverlap)
  else if centerDistance < 1 / 100000000 then
    (rng, .randomKick)
  else
    let r := (r1 * r2) / (r1 + r2)
    let gamma : ℚ := 1
    let k : ℚ := 2
    let f := k * delta - gamma * sqrtA (r * delta)
    let forceModule := f / centerDistance
    (⟨forceModule * comp1, forceModule * comp2, forceModule * comp3⟩, .divide)

/-- The pairwise force `InteractionForce::ForceOnACylinderFromASphere`,
following the source: a short cylinder is treated as a sphere at its
displaced distal end; otherwise the closest point on the cylinder axis to
the sphere center is found, clamped to the segment, and the sphere-sphere
helper is applied there, with the fourth component carrying the proportion
distributed to the proximal end. -/
def forceOnACylinderFromASphere (sqrtA : ℚ → ℚ) (rng : V3)
    (cylinder : NeuriteElementM) (sphere : SphereAgentM) : V4 :=
  let proximalEnd := cylinder.proximalEnd
  let distalEnd := cylinder.distalEnd
  let axis := cylinder.springAxis
  let actualLength := sqrtA (norm2 axis)
  let d := cylinder.diameter
  let c := sphere.position
  let r := sphere.diameter / 2
  if actualLength < r then
    let rc := d / 2
    let dvec := (axis.sdiv actualLength).smul rc
    let npd := distalEnd.sub dvec
    (computeForceOfASphereOnASphere sqrtA rng npd rc c r).force
  else
    let proximalEndClosest := c.sub proximalEnd
    let proximalEndClosestAxis := proximalEndClosest.dot axis
    let k := proximalEndClosestAxis / (actualLength * actualLength)
    let clamped : ℚ × V3 :=
      if k ≤ 1 ∧ 0 ≤ k then (1 - k, proximalEnd.add (axis.smul k))
      else if k < 0 then (1, proximalEnd)
      else (0, distalEnd)
    let proportionToProximalEnd := clamped.1
    let cc := clamped.2
    let penetration := d / 2 + r - sqrtA (norm2 (c.sub cc))
    if penetration ≤ 0 then
      ⟨0, 0, 0, 0⟩
    else
      let force := (computeForceOfASphereOnASphere sqrtA rng cc (d * (1 / 2)) c r).force
      ⟨force.f0, force.f1, force.f2, proportionToProximalEnd⟩

/-- The pairwise force `InteractionForce::ForceOnASphereFromACylinder`,
which the source computes as the opposite of the force on the cylinder
from the sphere. -/
def forceOnASphereFromACylinder (sqrtA : ℚ → ℚ) (rng : V3)
    (sphere : SphereAgentM) (cylinder : NeuriteElementM) : V3 :=
  let temp := forceOnACylinderFromASphere sqrtA rng cylinder sphere
  ⟨-temp.f0, -temp.f1, -temp.f2⟩

/-- Modelled from the spec: the diffusion grid's double-buffered state —
per-axis box counts, box length, lower corner, and the two concentration
buffers `c1_` (current) and `c2_` (next); the implementation file of
`DiffusionGrid` is not among the provided sources. -/
structure DiffusionGridM where
  numBoxesX : ℕ
  numBoxesY : ℕ
  numBoxesZ : ℕ
  boxLength : ℚ
  lowerCorner : V3
  c1 : List ℚ
  c2 : List ℚ
deriving DecidableEq, Repr

/-- Total number of grid points of a diffusion grid. -/
def DiffusionGridM.totalBoxes (g : DiffusionGridM) : ℕ :=
  g.numBoxesX * g.numBoxesY * g.numBoxesZ

/-- Real-world coordinate of the grid point with linear index `i`,
back-computed from the index as the initializer machinery does. -/
def DiffusionGridM.pointPosition (g : DiffusionGridM) (i : ℕ) : V3 :=
  ⟨g.lowerCorner.x + g.boxLength * ((i % g.numBoxesX : ℕ) : ℚ),
   g.lowerCorner.y + g.boxLength * (((i / g.numBoxesX) % g.numBoxesY : ℕ) : ℚ),
   g.lowerCorner.z + g.boxLength * ((i / (g.numBoxesX * g.numBoxesY) : ℕ) : ℚ)⟩

/-- Modelled from the spec: `Initialize()` sizes both concentration
buffers to the current box count and zero-fills them. -/
def DiffusionGridM.zeroFillBuffers (g : DiffusionGridM) : DiffusionGridM :=
  { g with c1 := List.replicate g.totalBoxes 0, c2 := List.replicate g.totalBoxes 0 }

/-- Modelled from the spec: the initializer sweep (`RunInitializers()`)
applies the user-supplied scalar field at every grid point's real-world
coordinate and stores the value in both concentration buffers, so that the
first buffer swap cannot leak the zero-fill default into live data. -/
def DiffusionGridM.applyInitFunc (g : DiffusionGridM) (f : ℚ → ℚ → ℚ → ℚ) : DiffusionGridM :=
  let vals := (List.range g.totalBoxes).map (fun i =>
    let p := g.pointPosition i
    f p.x p.y p.z)
  { g with c1 := vals, c2 := vals }

/-- Swap of the current and next concentration buffers, as performed at
the end of each diffusion sweep. -/
def DiffusionGridM.swapBuffers (g : DiffusionGridM) : DiffusionGridM :=
  { g with c1 := g.c2, c2 := g.c1 }

def methodEuler : String := "euler"

def methodRungeKutta : String := "runge-kutta"

def substanceFixtureName : String := "Substance"

/-- A two-agent fixture: neighbors one box apart, within the interaction
radius the grid is sized for. -/
def pairA : Agent := ⟨0, ⟨0, 0, 0⟩, 30⟩

def pairB : Agent := ⟨1, ⟨20, 0, 0⟩, 30⟩

def pairAgents : List Agent := [pairA, pairB]

def pairGrid : UniformGridEnvironment := UniformGridEnvironment.update pairAgents

/-- A two-agent configuration whose members are within the queried radius
but whose boxes are two apart along the x axis. -/
def c1CexA : Agent := ⟨0, ⟨0, 0, 0⟩, 30⟩

def c1CexB : Agent := ⟨1, ⟨61, 0, 0⟩, 30⟩

def c1CexAgents : List Agent := [c1CexA, c1CexB]

def c1CexGrid : UniformGridEnvironment := UniformGridEnvironment.update c1CexAgents

/-- Two coincident unit spheres, for exercising the near-zero-distance
branch of the sphere-sphere force. -/
def wSphereA : SphereAgentM := ⟨⟨0, 0, 0⟩, 1⟩

def wSphereB : SphereAgentM := ⟨⟨0, 0, 0⟩, 1⟩

/-- A square-root oracle usable at squared distance 0. -/
def zeroSqrt : ℚ → ℚ := fun _ => 0

/-- A concrete draw of the random kick, with components in `[-3, 3]`. -/
def kickRng : V3 := ⟨1, 2, -3⟩

theorem update_agents (agents : List Agent) :
    (UniformGridEnvironment.update agents).agents = agents := rfl

theorem mem_forEachNeighborWithinRadius {g : UniformGridEnvironment} {q o : Agent} {r2 : ℚ} :
    o ∈ g.forEachNeighborWithinRadius q r2 ↔
      o ∈ g.agents ∧ o.uid ≠ q.uid ∧ boxAdjacent (g.boxCoord o.pos) (g.boxCoord q.pos) ∧
        centersDist2 o.pos q.pos ≤ r2 := by
  simp [UniformGridEnvironment.forEachNeighborWithinRadius, List.mem_filter, and_assoc]

theorem floor_div_dist_le_one {a b l : ℚ} (hl : 0 < l) (h : |a - b| ≤ l) :
    (⌊a / l⌋ - ⌊b / l⌋).natAbs ≤ 1 := by
  rw [abs_le] at h
  have hba : a ≤ b + l := by linarith [h.2]
  have hab : b ≤ a + l := by linarith [h.1]
  have h1 : a / l ≤ b / l + 1 := by
    have := (div_le_div_iff_of_pos_right hl).mpr hba
    rwa [add_div, div_self (ne_of_gt hl)] at this
  have h2 : b / l ≤ a / l + 1 := by
    have := (div_le_div_iff_of_pos_right hl).mpr hab
    rwa [add_div, div_self (ne_of_gt hl)] at this
  have f1 : ⌊a / l⌋ ≤ ⌊b / l⌋ + 1 := by
    have := Int.floor_le_floor h1
    rwa [Int.floor_add_one] at this
  have f2 : ⌊b / l⌋ ≤ ⌊a / l⌋ + 1 := by
    have := Int.floor_le_floor h2
    rwa [Int.floor_add_one] at this
  omega

theorem axisdiff_le_of_dist2_le {o q : V3} {l : ℚ} (hl : 0 ≤ l)
    (h : centersDist2 o q ≤ l ^ 2) :
    |o.x - q.x| ≤ l ∧ |o.y - q.y| ≤ l ∧ |o.z - q.z| ≤ l := by
  unfold centersDist2 at h
  refine ⟨abs_le_of_sq_le_sq ?_ hl, abs_le_of_sq_le_sq ?_ hl, abs_le_of_sq_le_sq ?_ hl⟩ <;>
    nlinarith [sq_nonneg (o.x - q.x), sq_nonneg (o.y - q.y), sq_nonneg (o.z - q.z)]

theorem centersDist2_comm (p q : V3) : centersDist2 p q = centersDist2 q p := by
  unfold centersDist2
  ring

theorem boxAdjacent_of_close {g : UniformGridEnvironment} {o q : V3}
    (hl : 0 < g.boxLength) (h : centersDist2 o q ≤ g.boxLength ^ 2) :
    boxAdjacent (g.boxCoord o) (g.boxCoord q) := by
  obtain ⟨hx, hy, hz⟩ := axisdiff_le_of_dist2_le hl.le h
  refine ⟨?_, ?_, ?_⟩
  · exact floor_div_dist_le_one hl (by rw [sub_sub_sub_cancel_right]; exact hx)
  · exact floor_div_dist_le_one hl (by rw [sub_sub_sub_cancel_right]; exact hy)
  · exact floor_div_dist_le_one hl (by rw [sub_sub_sub_cancel_right]; exact hz)

/-- C1 (amended): for a grid built by `Update()`, provided the queried
squared radius does not exceed the squared box edge length (as is
guaranteed when querying with the interaction radius the boxes were sized
for), `ForEachNeighborWithinRadius(callback, q, r2)` visits exactly the
agents `o` of the collection with `dist²(o, q) ≤ r2` and `o ≠ q`; in
particular two distinct indexed agents within range always appear in each
other's visited set (symmetry). -/
theorem c1_neighbor_query_exact (agents : List Agent) (q o : Agent) (r2 : ℚ)
    (hl : 0 < (UniformGridEnvironment.update agents).boxLength)
    (hr : r2 ≤ (UniformGridEnvironment.update agents).boxLength ^ 2) :
    (o ∈ (UniformGridEnvironment.update agents).forEachNeighborWithinRadius q r2 ↔
       o ∈ agents ∧ o.uid ≠ q.uid ∧ centersDist2 o.pos q.pos ≤ r2) ∧
    (q ∈ agents → o ∈ agents →
      (o ∈ (UniformGridEnvironment.update agents).forEachNeighborWithinRadius q r2 ↔
       q ∈ (UniformGridEnvironment.update agents).forEachNeighborWithinRadius o r2)) := by
  have key : ∀ a b : Agent,
      (b ∈ (UniformGridEnvironment.update agents).forEachNeighborWithinRadius a r2 ↔
        b ∈ agents ∧ b.uid ≠ a.uid ∧ centersDist2 b.pos a.pos ≤ r2) := by
    intro a b
    rw [mem_forEachNeighborWithinRadius, update_agents]
    constructor
    · rintro ⟨h1, h2, _, h4⟩
      exact ⟨h1, h2, h4⟩
    · rintro ⟨h1, h2, h4⟩
      exact ⟨h1, h2, boxAdjacent_of_close hl (le_trans h4 hr), h4⟩
  refine ⟨key q o, fun hq ho => ?_⟩
  rw [key q o, key o q, centersDist2_comm o.pos q.pos]
  constructor
  · rintro ⟨_, h2, h3⟩
    exact ⟨hq, h2.symm, h3⟩
  · rintro ⟨_, h2, h3⟩
    exact ⟨ho, h2.symm, h3⟩

theorem c1_neighbor_query_exact_witness :
    (0 : ℚ) < (UniformGridEnvironment.update pairAgents).boxLength ∧
    (900 : ℚ) ≤ (UniformGridEnvironment.update pairAgents).boxLength ^ 2 ∧
    pairB ∈ (UniformGridEnvironment.update pairAgents).forEachNeighborWithinRadius pairA 900 :=
  ⟨by norm_num [UniformGridEnvironment.update, largestDiameter, pairAgents, pairA, pairB],
   by norm_num [UniformGridEnvironment.update, largestDiameter, pairAgents, pairA, pairB],
   (c1_neighbor_query_exact pairAgents pairA pairB 900
      (by norm_num [UniformGridEnvironment.update, largestDiameter, pairAgents, pairA, pairB])
      (by norm_num [UniformGridEnvironment.update, largestDiameter, pairAgents,
        pairA, pairB])).1.mpr
     ⟨by simp [pairAgents], by norm_num [pairA, pairB],
      by norm_num [centersDist2, pairA, pairB]⟩⟩

/-- C1 as frozen is false for arbitrary squared radii: over the grid built
for two diameter-30 agents at x-distance 61 (box length 30), the agents
are within the squared radius 3721 of each other and distinct, yet the
second agent is not visited by `ForEachNeighborWithinRadius` of the first,
because their boxes are two apart along the x axis and only the 3×3×3
neighborhood is visited. -/
theorem c1_counterexample :
    c1CexB ∈ c1CexGrid.agents ∧
    c1CexB.uid ≠ c1CexA.uid ∧
    centersDist2 c1CexB.pos c1CexA.pos ≤ 3721 ∧
    c1CexB ∉ c1CexGrid.forEachNeighborWithinRadius c1CexA 3721 := by
  refine ⟨?_, ?_, ?_, ?_⟩
  · rw [c1CexGrid, update_agents]
    simp [c1CexAgents]
  · norm_num [c1CexA, c1CexB]
  · norm_num [centersDist2, c1CexA, c1CexB]
  · intro hmem
    rw [mem_forEachNeighborWithinRadius] at hmem
    obtain ⟨-, -, hadj, -⟩ := hmem
    revert hadj
    norm_num [boxAdjacent, UniformGridEnvironment.boxCoord, c1CexGrid, c1CexAgents,
      c1CexA, c1CexB, UniformGridEnvironment.update, largestDiameter, listMin, listMax]

theorem int_ceil_eq_neg_floor (a : ℚ) : ⌈a⌉ = -⌊-a⌋ := by
  have h := Int.ceil_neg (α := ℚ) (a := -a)
  simpa using h

theorem grid3_eq : grid3 = ⟨30, ⟨-30, -30, -30⟩, 4, 4, 4, lattice3⟩ := by
  unfold grid3 UniformGridEnvironment.update
  norm_num [largestDiameter, lattice3, listMin, listMax, List.range_succ,
    int_ceil_eq_neg_floor]

/-- C5: `GetBoxIndex` resolves boundary ties by floor semantics: on the
grid of the 3×3×3 lattice fixture, the positions `(0,0,0)` and
`(1e-15, 1e-15, 1e-15)` map to the same box index (21) while
`(-1e-15, 1e-15, 1e-15)` maps to box 20, the adjacent box with the
next-lower x coordinate; no boundary position aliases a box beyond the
grid extent. -/
theorem c5_boundary_floor_semantics :
    grid3.getBoxIndex ⟨0, 0, 0⟩ = 21 ∧
    grid3.getBoxIndex ⟨1 / 10 ^ 15, 1 / 10 ^ 15, 1 / 10 ^ 15⟩ = 21 ∧
    grid3.getBoxIndex ⟨-(1 / 10 ^ 15), 1 / 10 ^ 15, 1 / 10 ^ 15⟩ = 20 ∧
    grid3.getBoxCoordinates 21 = (1, 1, 1) ∧
    grid3.getBoxCoordinates 20 = (0, 1, 1) := by
  refine ⟨?_, ?_, ?_, ?_, ?_⟩ <;> rw [grid3_eq] <;>
    norm_num [UniformGridEnvironment.getBoxIndex, UniformGridEnvironment.boxCoord,
      UniformGridEnvironment.getBoxCoordinates]

theorem floor_box_center_div {l : ℚ} (hl : 0 < l) (c : ℚ) (w : ℤ) :
    ⌊(c + l * w + l / 2 - c) / l⌋ = w := by
  have h : (c + l * w + l / 2 - c) / l = (w : ℚ) + 1 / 2 := by
    field_simp
    ring
  rw [h, Int.floor_int_add]
  norm_num

/-- C6: for every valid integer box coordinate within the grid bounds,
`GetBoxCoordinates` is the exact inverse of the flattening
`idx = x + y*nx + z*nx*ny`, so
`GetBoxCoordinates(GetBoxIndex(worldPositionOf(x,y,z))) = (x,y,z)`. -/
theorem c6_box_coordinates_inverse (g : UniformGridEnvironment) (x y z : ℤ)
    (hl : 0 < g.boxLength)
    (hx0 : 0 ≤ x) (hx1 : x < g.nx) (hy0 : 0 ≤ y) (hy1 : y < g.ny)
    (hz0 : 0 ≤ z) (hz1 : z < g.nz) :
    g.getBoxCoordinates (g.getBoxIndex (g.worldPositionOf (x, y, z))) = (x, y, z) := by
  have hnx : 0 < g.nx := lt_of_le_of_lt hx0 hx1
  have hny : 0 < g.ny := lt_of_le_of_lt hy0 hy1
  have hcoord : g.boxCoord (g.worldPositionOf (x, y, z)) = (x, y, z) := by
    unfold UniformGridEnvironment.boxCoord UniformGridEnvironment.worldPositionOf
    simp only [floor_box_center_div hl]
  have hidx : g.getBoxIndex (g.worldPositionOf (x, y, z)) = x + y * g.nx + z * g.nx * g.ny := by
    simp only [UniformGridEnvironment.getBoxIndex, hcoord]
  rw [hidx]
  unfold UniformGridEnvironment.getBoxCoordinates
  have e1 : x + y * g.nx + z * g.nx * g.ny = x + g.nx * (y + g.ny * z) := by ring
  have e2 : x + y * g.nx + z * g.nx * g.ny = (x + g.nx * y) + g.nx * g.ny * z := by ring
  have hmod : (x + y * g.nx + z * g.nx * g.ny) % g.nx = x := by
    rw [e1, Int.add_mul_emod_self_left, Int.emod_eq_of_lt hx0 hx1]
  have hdiv : (x + y * g.nx + z * g.nx * g.ny) / g.nx = y + g.ny * z := by
    rw [e1, Int.add_mul_ediv_left x (y + g.ny * z) hnx.ne',
      Int.ediv_eq_zero_of_lt hx0 hx1, zero_add]
  have hmod2 : (y + g.ny * z) % g.ny = y := by
    rw [Int.add_mul_emod_self_left, Int.emod_eq_of_lt hy0 hy1]
  have hxy0 : 0 ≤ x + g.nx * y := add_nonneg hx0 (mul_nonneg hnx.le hy0)
  have hxylt : x + g.nx * y < g.nx * g.ny := by nlinarith
  have hdiv2 : (x + y * g.nx + z * g.nx * g.ny) / (g.nx * g.ny) = z := by
    rw [e2, Int.add_mul_ediv_left (x + g.nx * y) z (mul_ne_zero hnx.ne' hny.ne'),
      Int.ediv_eq_zero_of_lt hxy0 hxylt, zero_add]
  rw [hmod, hdiv, hmod2, hdiv2]

theorem c6_box_coordinates_inverse_witness :
    (0 : ℚ) < grid3.boxLength ∧ (0 : ℤ) ≤ 1 ∧ (1 : ℤ) < grid3.nx ∧
    (0 : ℤ) ≤ 2 ∧ (2 : ℤ) < grid3.ny ∧ (0 : ℤ) ≤ 3 ∧ (3 : ℤ) < grid3.nz ∧
    grid3.getBoxCoordinates (grid3.getBoxIndex (grid3.worldPositionOf (1, 2, 3))) = (1, 2, 3) :=
  ⟨by rw [grid3_eq]; norm_num, by norm_num, by rw [grid3_eq]; norm_num,
   by norm_num, by rw [grid3_eq]; norm_num, by norm_num, by rw [grid3_eq]; norm_num,
   c6_box_coordinates_inverse grid3 1 2 3 (by rw [grid3_eq]; norm_num)
     (by norm_num) (by rw [grid3_eq]; norm_num) (by norm_num)
     (by rw [grid3_eq]; norm_num) (by norm_num) (by rw [grid3_eq]; norm_num)⟩

/-- C9: the neighbor-query pass over a frozen, rebuilt grid is a function
of the grid snapshot only: any two processing schedules (permutations of
the indexed agent collection, modelling different thread interleavings)
produce the same multiset of per-agent visited sets, so repeating the same
pass any number of times yields identical neighbor sets on every run. -/
theorem c9_schedule_independence (g : UniformGridEnvironment) (r2 : ℚ)
    (order1 order2 : List Agent)
    (h1 : order1.Perm g.agents) (h2 : order2.Perm g.agents) :
    queryPass g order1 r2 = queryPass g order2 r2 := by
  unfold queryPass
  exact Multiset.coe_eq_coe.mpr ((h1.trans h2.symm).map _)

theorem c9_schedule_independence_witness :
    ([pairB, pairA].Perm pairGrid.agents) ∧
    ([pairA, pairB].Perm pairGrid.agents) ∧
    queryPass pairGrid [pairB, pairA] 900 = queryPass pairGrid [pairA, pairB] 900 :=
  ⟨List.Perm.swap pairA pairB [], List.Perm.refl _,
   c9_schedule_independence pairGrid 900 [pairB, pairA] [pairA, pairB]
     (List.Perm.swap pairA pairB []) (List.Perm.refl _)⟩

theorem foldl_pushBack (rm : ResourceManager) (l : List Agent) :
    (l.foldl (fun r so => r.pushBack so) rm).agents = rm.agents ++ l := by
  induction l generalizing rm with
  | nil => simp
  | cons a t ih =>
    rw [List.foldl_cons, ih]
    simp [ResourceManager.pushBack]

theorem foldl_removeUid (rm : ResourceManager) (us : List ℕ) :
    (us.foldl (fun r u => r.removeUid u) rm).agents =
      rm.agents.filter (fun a => decide (a.uid ∉ us)) := by
  induction us generalizing rm with
  | nil => simp
  | cons u t ih =>
    rw [List.foldl_cons, ih]
    simp only [ResourceManager.removeUid]
    rw [List.filter_filter]
    apply List.filter_congr
    intro a _
    rw [← Bool.decide_and]
    exact decide_eq_decide.mpr (by simp [List.mem_cons, not_or, and_comm])

/-- C2: `TearDownIteration` first appends every staged new agent to the
authoritative collection, then removes every identifier on the
pending-removal list (in that order), and clears both staging structures;
consequently a uid on the removal list is absent afterwards even if the
agent was created in the same step, and agents on neither list are kept
unchanged. -/
theorem c2_commit_insert_then_remove (ctxt : ApproximateExecCtxt) (rm : ResourceManager) :
    ((ctxt.tearDownIteration rm).1.newSimObjects = [] ∧
     (ctxt.tearDownIteration rm).1.removeList = []) ∧
    ((ctxt.tearDownIteration rm).2.agents =
       (rm.agents ++ ctxt.newSimObjects).filter (fun a => decide (a.uid ∉ ctxt.removeList))) ∧
    (∀ u : ℕ, (∃ a ∈ (ctxt.tearDownIteration rm).2.agents, a.uid = u) ↔
       ((∃ a ∈ rm.agents ++ ctxt.newSimObjects, a.uid = u) ∧ u ∉ ctxt.removeList)) := by
  have hchar : (ctxt.tearDownIteration rm).2.agents =
      (rm.agents ++ ctxt.newSimObjects).filter (fun a => decide (a.uid ∉ ctxt.removeList)) := by
    unfold ApproximateExecCtxt.tearDownIteration
    simp only [foldl_removeUid, foldl_pushBack]
  refine ⟨⟨rfl, rfl⟩, hchar, fun u => ?_⟩
  rw [hchar]
  constructor
  · rintro ⟨a, ha, rfl⟩
    rw [List.mem_filter, decide_eq_true_eq] at ha
    exact ⟨⟨a, ha.1, rfl⟩, ha.2⟩
  · rintro ⟨⟨a, ha, rfl⟩, hu⟩
    exact ⟨a, List.mem_filter.mpr ⟨ha, by simpa using hu⟩, rfl⟩

/-- C3: `DefineSubstance` with method `runge-kutta` and a nonzero decay
constant logs a warning and registers a Runge-Kutta grid with decay forced
to zero; with an unsupported method name it logs an error and registers an
Euler grid with the given parameters; in every case exactly one grid is
registered with the resource manager and no fatal event is emitted (the
operation does not abort). -/
theorem c3_define_substance_fallbacks (dm : String) (rm : ContinuumRegistry)
    (sid : ℕ) (sname : String) (dc decay : ℚ) (res : ℤ) :
    ((defineSubstance dm rm sid sname dc decay res).1.continua.length =
        rm.continua.length + 1) ∧
    (∀ e ∈ (defineSubstance dm rm sid sname dc decay res).2, e.isFatal = false) ∧
    (dm = methodRungeKutta → decay ≠ 0 →
      (defineSubstance dm rm sid sname dc decay res).2 =
          [LogEvent.warning defineSubstanceLoc rkDecayWarningMsg] ∧
      (defineSubstance dm rm sid sname dc decay res).1.continua =
          rm.continua ++ [⟨.rungeKutta, sid, sname, dc, 0, res⟩]) ∧
    (dm ≠ methodEuler → dm ≠ methodRungeKutta →
      (defineSubstance dm rm sid sname dc decay res).2 =
          [LogEvent.error defineSubstanceLoc unknownMethodErrorMsg] ∧
      (defineSubstance dm rm sid sname dc decay res).1.continua =
          rm.continua ++ [⟨.euler, sid, sname, dc, decay, res⟩]) := by
  unfold defineSubstance
  by_cases he : dm = "euler"
  · subst he
    simp [ContinuumRegistry.addContinuum, methodEuler, methodRungeKutta, LogEvent.isFatal]
  · by_cases hr : dm = "runge-kutta"
    · subst hr
      by_cases hd : decay ≠ 0
      · simp [he, hd, ContinuumRegistry.addContinuum, methodEuler, methodRungeKutta,
          LogEvent.isFatal]
      · simp [he, hd, ContinuumRegistry.addContinuum, methodEuler, methodRungeKutta,
          LogEvent.isFatal]
    · simp [he, hr, ContinuumRegistry.addContinuum, methodEuler, methodRungeKutta,
        LogEvent.isFatal]

theorem c3_define_substance_fallbacks_witness :
    ((1 : ℚ) ≠ 0) ∧
    (defineSubstance methodRungeKutta ⟨[]⟩ 0 substanceFixtureName (1 / 2) 1 26).2 =
        [LogEvent.warning defineSubstanceLoc rkDecayWarningMsg] ∧
    (defineSubstance methodRungeKutta ⟨[]⟩ 0 substanceFixtureName (1 / 2) 1 26).1.continua =
        [⟨.rungeKutta, 0, substanceFixtureName, 1 / 2, 0, 26⟩] :=
  ⟨by norm_num,
   ((c3_define_substance_fallbacks methodRungeKutta ⟨[]⟩ 0 substanceFixtureName
      (1 / 2) 1 26).2.2.1 rfl (by norm_num)).1,
   ((c3_define_substance_fallbacks methodRungeKutta ⟨[]⟩ 0 substanceFixtureName
      (1 / 2) 1 26).2.2.1 rfl (by norm_num)).2⟩

/-- C4: `InteractionForce::Calculate` dispatches each of the four
sphere/cylinder shape pairs to its own pairwise force function (the
supported pairs are told apart exactly), and every pair involving a shape
outside the supported set reaches `Log::Fatal`, which aborts the run and
produces no numeric result. -/
theorem c4_calculate_dispatch :
    (calculate Shape.sphere Shape.sphere =
        CalculateResult.dispatched PairwiseForceFn.forceBetweenSpheres) ∧
    (calculate Shape.sphere Shape.cylinder =
        CalculateResult.dispatched PairwiseForceFn.forceOnASphereFromACylinder) ∧
    (calculate Shape.cylinder Shape.sphere =
        CalculateResult.dispatched PairwiseForceFn.forceOnACylinderFromASphere) ∧
    (calculate Shape.cylinder Shape.cylinder =
        CalculateResult.dispatched PairwiseForceFn.forceBetweenCylinders) ∧
    (∀ l r : Shape, (l = Shape.other ∨ r = Shape.other) →
        calculate l r = CalculateResult.fatalError interactionForceLoc calculateFatalMsg) ∧
    (∀ l r : Shape,
        (∀ loc msg : String, calculate l r ≠ CalculateResult.fatalError loc msg) ↔
          (l ≠ Shape.other ∧ r ≠ Shape.other)) ∧
    (∀ l₁ r₁ l₂ r₂ : Shape, l₁ ≠ Shape.other → r₁ ≠ Shape.other →
        calculate l₁ r₁ = calculate l₂ r₂ → l₁ = l₂ ∧ r₁ = r₂) := by
  refine ⟨rfl, rfl, rfl, rfl, ?_, ?_, ?_⟩
  · intro l r h
    rcases l <;> rcases r <;> simp_all [calculate]
  · intro l r
    rcases l <;> rcases r <;> simp [calculate]
  · intro l₁ r₁ l₂ r₂ h1 h2 h
    rcases l₁ <;> rcases r₁ <;> rcases l₂ <;> rcases r₂ <;> simp_all [calculate]

theorem c4_calculate_dispatch_witness :
    calculate Shape.other Shape.sphere =
      CalculateResult.fatalError interactionForceLoc calculateFatalMsg :=
  c4_calculate_dispatch.2.2.2.2.1 Shape.other Shape.sphere (Or.inl rfl)

theorem range_map_const {α : Type} (n : ℕ) (c : α) :
    (List.range n).map (fun _ => c) = List.replicate n c := by
  induction n with
  | zero => simp
  | succ k ih => simp [List.range_succ, ih, List.replicate_succ']

/-- C7: after sizing/zero-filling both buffers and running a
constant-value initializer, every grid point of the diffusion grid holds
exactly that constant in both the current and the shadow buffer, and the
buffers still hold it after one buffer swap — the zero-fill default does
not leak into live data. -/
theorem c7_constant_init_fills_both_buffers (g : DiffusionGridM) (c : ℚ) :
    ((g.zeroFillBuffers.applyInitFunc (fun _ _ _ => c)).c1 =
        List.replicate g.totalBoxes c) ∧
    ((g.zeroFillBuffers.applyInitFunc (fun _ _ _ => c)).c2 =
        List.replicate g.totalBoxes c) ∧
    ((g.zeroFillBuffers.applyInitFunc (fun _ _ _ => c)).swapBuffers.c1 =
        List.replicate g.totalBoxes c) ∧
    ((g.zeroFillBuffers.applyInitFunc (fun _ _ _ => c)).swapBuffers.c2 =
        List.replicate g.totalBoxes c) := by
  have htot : g.zeroFillBuffers.totalBoxes = g.totalBoxes := rfl
  have h : (g.zeroFillBuffers.applyInitFunc (fun _ _ _ => c)).c1 =
      List.replicate g.totalBoxes c := by
    simp [DiffusionGridM.applyInitFunc, htot, range_map_const]
  have h2 : (g.zeroFillBuffers.applyInitFunc (fun _ _ _ => c)).c2 =
      List.replicate g.totalBoxes c := by
    simp [DiffusionGridM.applyInitFunc, htot, range_map_const]
  exact ⟨h, h2, by simp [DiffusionGridM.swapBuffers, h2], by simp [DiffusionGridM.swapBuffers, h]⟩

theorem sqrt_lt_threshold_iff {cd d2 : ℚ} (h0 : 0 ≤ cd) (hs : cd * cd = d2) :
    cd < 1 / 100000000 ↔ d2 < 1 / 10 ^ 16 := by
  constructor
  · intro h
    nlinarith
  · intro h
    nlinarith

/-- C8: in the sphere-sphere force computations, whenever the centers
overlap within the interaction range but the center distance is below the
near-zero threshold `1e-8`, the returned force is the random repulsive
kick drawn from `[-3, 3]` per component and the division branch is not
executed; the division branch is reached only when the center distance is
at least the threshold.  The square-root oracle is constrained to behave
as the true square root at the queried squared distance. -/
theorem c8_near_zero_random_kick (sqrtA : ℚ → ℚ) (rng : V3) (lhs rhs : SphereAgentM)
    (hs0 : 0 ≤ sqrtA (centersDist2 lhs.position rhs.position))
    (hsq : sqrtA (centersDist2 lhs.position rhs.position) *
             sqrtA (centersDist2 lhs.position rhs.position) =
           centersDist2 lhs.position rhs.position)
    (hrng : |rng.x| ≤ 3 ∧ |rng.y| ≤ 3 ∧ |rng.z| ≤ 3) :
    ((sqrtA (centersDist2 lhs.position rhs.position) ≤
        lhs.diameter / 2 + rhs.diameter / 2 + 3 →
      centersDist2 lhs.position rhs.position < 1 / 10 ^ 16 →
      forceBetweenSpheres sqrtA rng lhs rhs = (rng, ForceBranch.randomKick) ∧
        |(forceBetweenSpheres sqrtA rng lhs rhs).1.x| ≤ 3 ∧
        |(forceBetweenSpheres sqrtA rng lhs rhs).1.y| ≤ 3 ∧
        |(forceBetweenSpheres sqrtA rng lhs rhs).1.z| ≤ 3)) ∧
    ((forceBetweenSpheres sqrtA rng lhs rhs).2 = ForceBranch.divide →
      1 / 10 ^ 16 ≤ centersDist2 lhs.position rhs.position) ∧
    (∀ c1 c2 : V3, ∀ rr1 rr2 : ℚ, 0 ≤ sqrtA (centersDist2 c1 c2) →
      sqrtA (centersDist2 c1 c2) * sqrtA (centersDist2 c1 c2) = centersDist2 c1 c2 →
      (sqrtA (centersDist2 c1 c2) ≤ rr1 + rr2 →
        centersDist2 c1 c2 < 1 / 10 ^ 16 →
        computeForceOfASphereOnASphere sqrtA rng c1 rr1 c2 rr2 =
          ⟨⟨rng.x, rng.y, rng.z, 0⟩, ForceBranch.randomKick⟩) ∧
      ((computeForceOfASphereOnASphere sqrtA rng c1 rr1 c2 rr2).branch =
          ForceBranch.divide →
        1 / 10 ^ 16 ≤ centersDist2 c1 c2)) := by
  obtain ⟨hrx, hry, hrz⟩ := hrng
  refine ⟨?_, ?_, ?_⟩
  · intro hover hclose
    have hcd : sqrtA (centersDist2 lhs.position rhs.position) < 1 / 100000000 :=
      (sqrt_lt_threshold_iff hs0 hsq).mpr hclose
    have hres : forceBetweenSpheres sqrtA rng lhs rhs = (rng, ForceBranch.randomKick) := by
      unfold forceBetweenSpheres
      dsimp only
      simp only [centersDist2] at hcd hover
      split_ifs with h1
      · exfalso
        rw [min_self] at h1
        linarith
      · rfl
    exact ⟨hres, by rw [hres]; exact hrx, by rw [hres]; exact hry, by rw [hres]; exact hrz⟩
  · intro hdiv
    by_contra hlt
    push_neg at hlt
    have hcd : sqrtA (centersDist2 lhs.position rhs.position) < 1 / 100000000 :=
      (sqrt_lt_threshold_iff hs0 hsq).mpr hlt
    unfold forceBetweenSpheres at hdiv
    dsimp only at hdiv
    simp only [centersDist2] at hcd
    split_ifs at hdiv with h1
  · intro c1 c2 rr1 rr2 hc0 hcsq
    constructor
    · intro hover hclose
      have hcd : sqrtA (centersDist2 c1 c2) < 1 / 100000000 :=
        (sqrt_lt_threshold_iff hc0 hcsq).mpr hclose
      unfold computeForceOfASphereOnASphere
      dsimp only
      simp only [centersDist2] at hcd hover
      split_ifs with h1
      · exfalso
        linarith
      · rfl
    · intro hdiv
      by_contra hlt
      push_neg at hlt
      have hcd : sqrtA (centersDist2 c1 c2) < 1 / 100000000 :=
        (sqrt_lt_threshold_iff hc0 hcsq).mpr hlt
      unfold computeForceOfASphereOnASphere at hdiv
      dsimp only at hdiv
      simp only [centersDist2] at hcd
      split_ifs at hdiv with h1

theorem c8_near_zero_random_kick_witness :
    (0 : ℚ) ≤ zeroSqrt (centersDist2 wSphereA.position wSphereB.position) ∧
    zeroSqrt (centersDist2 wSphereA.position wSphereB.position) *
        zeroSqrt (centersDist2 wSphereA.position wSphereB.position) =
      centersDist2 wSphereA.position wSphereB.position ∧
    (|kickRng.x| ≤ 3 ∧ |kickRng.y| ≤ 3 ∧ |kickRng.z| ≤ 3) ∧
    zeroSqrt (centersDist2 wSphereA.position wSphereB.position) ≤
      wSphereA.diameter / 2 + wSphereB.diameter / 2 + 3 ∧
    centersDist2 wSphereA.position wSphereB.position < 1 / 10 ^ 16 ∧
    forceBetweenSpheres zeroSqrt kickRng wSphereA wSphereB = (kickRng, ForceBranch.randomKick) :=
  ⟨by norm_num [zeroSqrt],
   by norm_num [zeroSqrt, centersDist2, wSphereA, wSphereB],
   ⟨by norm_num [kickRng], by norm_num [kickRng], by norm_num [kickRng]⟩,
   by norm_num [zeroSqrt, wSphereA, wSphereB],
   by norm_num [centersDist2, wSphereA, wSphereB],
   ((c8_near_zero_random_kick zeroSqrt kickRng wSphereA wSphereB
       (by norm_num [zeroSqrt])
       (by norm_num [zeroSqrt, centersDist2, wSphereA, wSphereB])
       ⟨by norm_num [kickRng], by norm_num [kickRng], by norm_num [kickRng]⟩).1
     (by norm_num [zeroSqrt, wSphereA, wSphereB])
     (by norm_num [centersDist2, wSphereA, wSphereB])).1⟩

/-- C10: `ForceOnASphereFromACylinder(s, c)` returns exactly the
component-wise negation of the first three components of
`ForceOnACylinderFromASphere(c, s)`, for every sphere, cylinder,
square-root oracle and random draw. -/
theorem c10_sphere_cylinder_antisymmetry (sqrtA : ℚ → ℚ) (rng : V3)
    (sphere : SphereAgentM) (cylinder : NeuriteElementM) :
    forceOnASphereFromACylinder sqrtA rng sphere cylinder =
      ⟨-(forceOnACylinderFromASphere sqrtA rng cylinder sphere).f0,
       -(forceOnACylinderFromASphere sqrtA rng cylinder sphere).f1,
       -(forceOnACylinderFromASphere sqrtA rng cylinder sphere).f2⟩ := rfl
